import Mathlib

/-!
Verification of the transaction-lifecycle core of the z3nch4in testnet
automation tool: gas pricing, gas estimation, nonce tracking, submission
event ordering, bounded-random operation scheduling, the faucet retry
policy and the NFT / ERC20 burn policies, shallowly embedded from the
JavaScript source.  Network calls are modelled by explicit parameters
(`Option` for fallible fetches, a rational in [0,1) for Math.random()).
-/

/-- Constant GAS.PRICE_MULTIPLIER (1.1) from src/utils/constants.js. -/
def GAS_PRICE_MULTIPLIER : ℚ := 11 / 10

/-- Constant GAS.RETRY_INCREASE (1.3) from src/utils/constants.js. -/
def GAS_RETRY_INCREASE : ℚ := 13 / 10

/-- Constant GAS.MIN_GWEI (0.0001) from src/utils/constants.js. -/
def GAS_MIN_GWEI : ℚ := 1 / 10000

/-- Constant GAS.MAX_GWEI (200) from src/utils/constants.js. -/
def GAS_MAX_GWEI : ℚ := 200

/-- Constant GAS.DEFAULT_GAS (150000) from src/utils/constants.js. -/
def GAS_DEFAULT_GAS : ℤ := 150000

/-- Models web3.utils.toWei(x, 'gwei'): scale a gwei quantity by 10^9 wei
per gwei (exact for the two constants it is applied to). -/
def toWeiGwei (gwei : ℚ) : ℤ := Int.floor (gwei * 1000000000)

/-- Models getGasPrice (src/src/ContractDeployer.js lines 69-115; the copies
in the other manager classes are identical except that they always use the
constant multiplier).  `fetched` is the network gas price in wei, `none` when
`web3.eth.getGasPrice()` throws, which takes the catch branch.
`cfgMultiplier` is `config.gas_price_multiplier`; the value 0 models a falsy
configured value, which falls back to GAS.PRICE_MULTIPLIER.  The float
products are modelled exactly over ℚ. -/
def getGasPrice (fetched : Option ℤ) (cfgMultiplier : ℚ) (retryCount : ℕ) : ℤ :=
  match fetched with
  | none => toWeiGwei GAS_MIN_GWEI
  | some networkGasPrice =>
    let baseMultiplier := if cfgMultiplier = 0 then GAS_PRICE_MULTIPLIER else cfgMultiplier
    let multiplier :=
      if 0 < retryCount then baseMultiplier * GAS_RETRY_INCREASE ^ retryCount
      else baseMultiplier
    let adjustedGasPrice : ℤ := Int.floor ((networkGasPrice : ℚ) * multiplier)
    let minGasPrice := toWeiGwei GAS_MIN_GWEI
    let maxGasPrice := toWeiGwei GAS_MAX_GWEI
    if adjustedGasPrice < minGasPrice then minGasPrice
    else if maxGasPrice < adjustedGasPrice then maxGasPrice
    else adjustedGasPrice

/-- Models estimateGas (src/src/ContractDeployer.js lines 118-137, duplicated
verbatim in the other manager classes): on success Math.floor(estimate * 1.2),
on failure (`none`) the constant GAS.DEFAULT_GAS; the failure is swallowed,
never rethrown. -/
def estimateGas (rawEstimate : Option ℕ) : ℤ :=
  match rawEstimate with
  | some estimatedGas => Int.floor ((estimatedGas : ℚ) * (12 / 10))
  | none => GAS_DEFAULT_GAS

/-- Models the inline deployment gas estimate of ContractDeployer.deployContract
(lines 210-220): the raw estimate on success, 2,000,000 on failure. -/
def contractDeployEstimatedGas (rawEstimate : Option ℕ) : ℕ :=
  match rawEstimate with
  | some e => e
  | none => 2000000

/-- Models the inline deployment gas estimate of ERC20TokenDeployer.deployContract
(lines 249-259): the raw estimate on success, 2,500,000 on failure. -/
def erc20DeployEstimatedGas (rawEstimate : Option ℕ) : ℕ :=
  match rawEstimate with
  | some e => e
  | none => 2500000

/-- Models the inline deployment gas estimate of NFTManager.deployContract
(lines 246-256): the raw estimate on success, 3,000,000 on failure. -/
def nftDeployEstimatedGas (rawEstimate : Option ℕ) : ℕ :=
  match rawEstimate with
  | some e => e
  | none => 3000000

lemma toWeiGwei_min_eval : toWeiGwei GAS_MIN_GWEI = 100000 := by
  rw [toWeiGwei, GAS_MIN_GWEI,
    show (1 / 10000 * 1000000000 : ℚ) = ((100000 : ℤ) : ℚ) by norm_num,
    Int.floor_intCast]

lemma toWeiGwei_max_eval : toWeiGwei GAS_MAX_GWEI = 200000000000 := by
  rw [toWeiGwei, GAS_MAX_GWEI,
    show (200 * 1000000000 : ℚ) = ((200000000000 : ℤ) : ℚ) by norm_num,
    Int.floor_intCast]

lemma estimateGas_some_eq (e : ℕ) : estimateGas (some e) = 12 * (e : ℤ) / 10 := by
  simp only [estimateGas]
  rw [show (e : ℚ) * (12 / 10) = ((12 * (e : ℤ) : ℤ) : ℚ) / ((10 : ℕ) : ℚ) by
    push_cast; ring]
  exact Rat.floor_intCast_div_natCast _ _

/-- Claim C1: for every network gas price (including the fetch-failure
fallback path), configured multiplier and retry count, getGasPrice returns a
value within [MIN_GWEI, MAX_GWEI] expressed in wei, inclusive. -/
theorem getGasPrice_mem_bounds (fetched : Option ℤ) (cfgMultiplier : ℚ)
    (retryCount : ℕ) :
    toWeiGwei GAS_MIN_GWEI ≤ getGasPrice fetched cfgMultiplier retryCount ∧
      getGasPrice fetched cfgMultiplier retryCount ≤ toWeiGwei GAS_MAX_GWEI := by
  have hminmax : toWeiGwei GAS_MIN_GWEI ≤ toWeiGwei GAS_MAX_GWEI := by
    rw [toWeiGwei_min_eval, toWeiGwei_max_eval]; omega
  cases fetched with
  | none => exact ⟨le_refl _, hminmax⟩
  | some p =>
    simp only [getGasPrice]
    split_ifs <;> constructor <;> omega

/-- Claim C4, counterexample: for a raw estimate of 1 the code returns
Math.floor(1 * 1.2) = 1, while the claimed ceiling of 1 * 1.2 is 2. -/
theorem estimateGas_ne_ceil_at_one :
    estimateGas (some 1) = 1 ∧ Int.ceil ((1 : ℚ) * (12 / 10)) = 2 ∧
      estimateGas (some 1) ≠ Int.ceil ((1 : ℚ) * (12 / 10)) := by
  have h1 : estimateGas (some 1) = 1 := by rw [estimateGas_some_eq]; norm_num
  have h2 : Int.ceil ((1 : ℚ) * (12 / 10)) = 2 := by
    rw [show ((1 : ℚ) * (12 / 10)) = 6 / 5 by norm_num, Int.ceil_eq_iff]
    norm_num
  exact ⟨h1, h2, by omega⟩

/-- Claim C4 (amended): whenever estimation succeeds, estimateGas returns the
floor (not the ceiling) of the raw estimate multiplied by 1.2, i.e. the
integer division (12 * e) / 10. -/
theorem estimateGas_some_eq_floor_div (e : ℕ) :
    estimateGas (some e) = 12 * (e : ℤ) / 10 := estimateGas_some_eq e

/-- Claim C5: when estimation succeeds the buffered estimate is at least the
raw estimate; when it fails, the shared estimateGas helper returns 150,000 and
the three deployment paths return their documented defaults 2,000,000 /
2,500,000 / 3,000,000; in both cases a value is returned (totality: the
failure is never propagated). -/
theorem estimateGas_lower_bound_and_defaults :
    (∀ e : ℕ, (e : ℤ) ≤ estimateGas (some e)) ∧
      estimateGas none = 150000 ∧
      contractDeployEstimatedGas none = 2000000 ∧
      erc20DeployEstimatedGas none = 2500000 ∧
      nftDeployEstimatedGas none = 3000000 ∧
      (∀ e : ℕ, contractDeployEstimatedGas (some e) = e ∧
        erc20DeployEstimatedGas (some e) = e ∧ nftDeployEstimatedGas (some e) = e) := by
  refine ⟨fun e => ?_, rfl, rfl, rfl, rfl, fun e => ⟨rfl, rfl, rfl⟩⟩
  simp only [estimateGas]
  rw [Int.le_floor]
  push_cast
  nlinarith [show (0 : ℚ) ≤ (e : ℚ) from Nat.cast_nonneg e]

/-- Operations offered by the per-manager nonce tracker (getNonce /
incrementNonce on the shared currentNonce cache). -/
inductive NonceOp where
  | getNonce
  | incrementNonce
deriving DecidableEq

/-- Models getNonce (src/src/ContractDeployer.js lines 47-58, duplicated in
every manager): when the cache is unset (null) query the network transaction
count and cache it, otherwise return the cached value.  Returns the value
returned to the caller together with the new cache state. -/
def getNonceStep (network : ℤ) (currentNonce : Option ℤ) : ℤ × Option ℤ :=
  match currentNonce with
  | none => (network, some network)
  | some n => (n, some n)

/-- Models incrementNonce (src/src/ContractDeployer.js lines 61-66): increment
the cache by one when it is set, otherwise do nothing. -/
def incrementNonceStep (currentNonce : Option ℤ) : Option ℤ :=
  match currentNonce with
  | none => none
  | some n => some (n + 1)

/-- Runs a sequence of nonce-tracker operations from a cache state, collecting
the values returned by the getNonce calls, with `network` the transaction
count the network would report on the first query. -/
def runNonceOps (network : ℤ) : List NonceOp → Option ℤ → List ℤ × Option ℤ
  | [], s => ([], s)
  | NonceOp.getNonce :: rest, s =>
    let stepped := getNonceStep network s
    let tail := runNonceOps network rest stepped.2
    (stepped.1 :: tail.1, tail.2)
  | NonceOp.incrementNonce :: rest, s => runNonceOps network rest (incrementNonceStep s)

/-- Builds the operation sequence of k transaction submissions on one manager
instance: each getNonce paired with its incrementNonce, no reset in between. -/
def pairedOps : ℕ → List NonceOp
  | 0 => []
  | k + 1 => NonceOp.getNonce :: NonceOp.incrementNonce :: pairedOps k

lemma runNonceOps_pairedOps_some (network : ℤ) :
    ∀ (k : ℕ) (m : ℤ),
      (runNonceOps network (pairedOps k) (some m)).1 =
        (List.range k).map fun i : ℕ => m + (i : ℤ) := by
  intro k
  induction k with
  | zero => intro m; rfl
  | succ k ih =>
    intro m
    have hstep : (runNonceOps network (pairedOps (k + 1)) (some m)).1 =
        m :: (runNonceOps network (pairedOps k) (some (m + 1))).1 := rfl
    rw [hstep, ih (m + 1), List.range_succ_eq_map, List.map_cons, List.map_map]
    refine congrArg₂ (· :: ·) (by push_cast; ring) ?_
    refine List.map_congr_left fun i _ => ?_
    simp only [Function.comp_apply]
    push_cast
    ring

/-- Claim C2: with no reset, k paired (getNonce, incrementNonce) submissions
starting from an uninitialized cache return exactly the values network,
network+1, ..., network+k-1 — a strictly increasing sequence starting at the
first network-queried value — and incrementNonce is a no-op while the cache
was never initialized. -/
theorem pairedNonceRun_strictly_increasing (network : ℤ) (k : ℕ) :
    (runNonceOps network (pairedOps k) none).1 =
        ((List.range k).map fun i : ℕ => network + (i : ℤ)) ∧
      (runNonceOps network (pairedOps k) none).1.Pairwise (· < ·) ∧
      incrementNonceStep none = none := by
  have hmain : (runNonceOps network (pairedOps k) none).1 =
      (List.range k).map fun i : ℕ => network + (i : ℤ) := by
    cases k with
    | zero => rfl
    | succ k =>
      have hstep : (runNonceOps network (pairedOps (k + 1)) none).1 =
          network :: (runNonceOps network (pairedOps k) (some (network + 1))).1 := rfl
      rw [hstep, runNonceOps_pairedOps_some network k (network + 1),
        List.range_succ_eq_map, List.map_cons, List.map_map]
      refine congrArg₂ (· :: ·) (by push_cast; ring) ?_
      refine List.map_congr_left fun i _ => ?_
      simp only [Function.comp_apply]
      push_cast
      ring
  refine ⟨hmain, ?_, rfl⟩
  rw [hmain]
  refine List.Pairwise.map _ (fun a b hab => ?_) (List.pairwise_lt_range k)
  exact add_lt_add_left (by exact_mod_cast hab) network

/-- Externally visible steps of one transaction submission pass, in the order
they appear in the source of each transaction-performing method. -/
inductive TxEvent where
  | getNonce
  | getGasPrice
  | estimateGas
  | sign
  | incrementNonce
  | broadcast
deriving DecidableEq

/-- Event order of ContractDeployer.deployContract (lines 204-243). -/
def deployContractEvents : List TxEvent :=
  [TxEvent.getNonce, TxEvent.getGasPrice, TxEvent.estimateGas, TxEvent.sign,
    TxEvent.incrementNonce, TxEvent.broadcast]

/-- Event order of ContractDeployer.interactWithContract (lines 295-329). -/
def interactWithContractEvents : List TxEvent :=
  [TxEvent.getNonce, TxEvent.getGasPrice, TxEvent.estimateGas, TxEvent.sign,
    TxEvent.incrementNonce, TxEvent.broadcast]

/-- Event order of ERC20TokenDeployer.deployContract (lines 243-282). -/
def erc20DeployContractEvents : List TxEvent :=
  [TxEvent.getNonce, TxEvent.getGasPrice, TxEvent.estimateGas, TxEvent.sign,
    TxEvent.incrementNonce, TxEvent.broadcast]

/-- Event order of ERC20TokenDeployer.mintTokens (lines 318-348). -/
def mintTokensEvents : List TxEvent :=
  [TxEvent.getNonce, TxEvent.getGasPrice, TxEvent.estimateGas, TxEvent.sign,
    TxEvent.incrementNonce, TxEvent.broadcast]

/-- Event order of ERC20TokenDeployer.burnTokens (lines 380-410). -/
def burnTokensEvents : List TxEvent :=
  [TxEvent.getNonce, TxEvent.getGasPrice, TxEvent.estimateGas, TxEvent.sign,
    TxEvent.incrementNonce, TxEvent.broadcast]

/-- Event order of NFTManager.deployContract (lines 240-279). -/
def nftDeployContractEvents : List TxEvent :=
  [TxEvent.getNonce, TxEvent.getGasPrice, TxEvent.estimateGas, TxEvent.sign,
    TxEvent.incrementNonce, TxEvent.broadcast]

/-- Event order of NFTManager.mintNFT (lines 349-378). -/
def mintNFTEvents : List TxEvent :=
  [TxEvent.getNonce, TxEvent.getGasPrice, TxEvent.estimateGas, TxEvent.sign,
    TxEvent.incrementNonce, TxEvent.broadcast]

/-- Event order of NFTManager.burnNFT (lines 413-442). -/
def burnNFTEvents : List TxEvent :=
  [TxEvent.getNonce, TxEvent.getGasPrice, TxEvent.estimateGas, TxEvent.sign,
    TxEvent.incrementNonce, TxEvent.broadcast]

/-- Event order of ContractTesterManager.deployTestContract (lines 228-263). -/
def deployTestContractEvents : List TxEvent :=
  [TxEvent.getNonce, TxEvent.getGasPrice, TxEvent.estimateGas, TxEvent.sign,
    TxEvent.incrementNonce, TxEvent.broadcast]

/-- Event order of one setValue call in
ContractTesterManager.performParameterVariationTests (lines 343-373). -/
def parameterVariationCallEvents : List TxEvent :=
  [TxEvent.getNonce, TxEvent.getGasPrice, TxEvent.estimateGas, TxEvent.sign,
    TxEvent.incrementNonce, TxEvent.broadcast]

/-- Event order of the base-value setValue call in
ContractTesterManager.performStressTests (lines 428-461). -/
def stressBaseValueEvents : List TxEvent :=
  [TxEvent.getNonce, TxEvent.getGasPrice, TxEvent.estimateGas, TxEvent.sign,
    TxEvent.incrementNonce, TxEvent.broadcast]

/-- Event order of one stress operation call in
ContractTesterManager.performStressTests (lines 485-518). -/
def stressOperationEvents : List TxEvent :=
  [TxEvent.getNonce, TxEvent.getGasPrice, TxEvent.estimateGas, TxEvent.sign,
    TxEvent.incrementNonce, TxEvent.broadcast]

/-- Event order of one boundary setValue call in
ContractTesterManager.performBoundaryTests (lines 580-613). -/
def boundaryCallEvents : List TxEvent :=
  [TxEvent.getNonce, TxEvent.getGasPrice, TxEvent.estimateGas, TxEvent.sign,
    TxEvent.incrementNonce, TxEvent.broadcast]

/-- Event order of BatchOperationManager.deployBatchProcessor (concatenated
NFTManager.js file, lines 889-925). -/
def deployBatchProcessorEvents : List TxEvent :=
  [TxEvent.getNonce, TxEvent.getGasPrice, TxEvent.estimateGas, TxEvent.sign,
    TxEvent.incrementNonce, TxEvent.broadcast]

/-- Event order of BatchOperationManager.testIndividualOperations
(lines 956-989). -/
def testIndividualOperationsEvents : List TxEvent :=
  [TxEvent.getNonce, TxEvent.getGasPrice, TxEvent.estimateGas, TxEvent.sign,
    TxEvent.incrementNonce, TxEvent.broadcast]

/-- Event order of BatchOperationManager.executeBatchOperations
(lines 1078-1109). -/
def executeBatchOperationsEvents : List TxEvent :=
  [TxEvent.getNonce, TxEvent.getGasPrice, TxEvent.estimateGas, TxEvent.sign,
    TxEvent.incrementNonce, TxEvent.broadcast]

/-- Event order of TokenTransfer.executeTransfer (src/unnamed/part_000 lines
159-201): the nonce is incremented before signTransaction, not after it. -/
def executeTransferEvents : List TxEvent :=
  [TxEvent.getNonce, TxEvent.getGasPrice, TxEvent.estimateGas,
    TxEvent.incrementNonce, TxEvent.sign, TxEvent.broadcast]

/-- Every transaction-performing operation of the repository. -/
def allTxEventTraces : List (List TxEvent) :=
  [deployContractEvents, interactWithContractEvents, erc20DeployContractEvents,
    mintTokensEvents, burnTokensEvents, nftDeployContractEvents, mintNFTEvents,
    burnNFTEvents, deployTestContractEvents, parameterVariationCallEvents,
    stressBaseValueEvents, stressOperationEvents, boundaryCallEvents,
    deployBatchProcessorEvents, testIndividualOperationsEvents,
    executeBatchOperationsEvents, executeTransferEvents]

/-- Counts the incrementNonce events of a trace. -/
def incrementCount (events : List TxEvent) : ℕ :=
  events.count TxEvent.incrementNonce

/-- Checks whether some sign event is immediately followed by incrementNonce. -/
def signImmediatelyBeforeIncrement (events : List TxEvent) : Bool :=
  (events.zip events.tail).any fun p =>
    p.1 == TxEvent.sign && p.2 == TxEvent.incrementNonce

/-- Checks whether some incrementNonce event is immediately followed by sign. -/
def incrementImmediatelyBeforeSign (events : List TxEvent) : Bool :=
  (events.zip events.tail).any fun p =>
    p.1 == TxEvent.incrementNonce && p.2 == TxEvent.sign

/-- Checks whether the (first) incrementNonce comes before the broadcast. -/
def incrementBeforeBroadcast (events : List TxEvent) : Bool :=
  events.indexOf TxEvent.incrementNonce < events.indexOf TxEvent.broadcast

/-- Effect of one submission pass on the cached nonce, starting from cache
state `s`: getNonce and incrementNonce act on the cache as in the source; a
failing broadcast throws into the catch block, which leaves the cache
untouched (no rollback) and performs no further events. -/
def runTxEvents (network : ℤ) (broadcastFails : Bool) :
    List TxEvent → Option ℤ → Option ℤ
  | [], s => s
  | TxEvent.getNonce :: rest, s =>
    runTxEvents network broadcastFails rest (getNonceStep network s).2
  | TxEvent.incrementNonce :: rest, s =>
    runTxEvents network broadcastFails rest (incrementNonceStep s)
  | TxEvent.broadcast :: rest, s =>
    if broadcastFails then s else runTxEvents network broadcastFails rest s
  | _ :: rest, s => runTxEvents network broadcastFails rest s

/-- Claim C3, counterexample: in TokenTransfer.executeTransfer (src/unnamed/
part_000 lines 195-201) incrementNonce is called before signTransaction, so
in this operation the increment does not happen immediately after the
transaction is signed, refuting the claim for the self-transfer operation. -/
theorem executeTransfer_increments_before_sign :
    signImmediatelyBeforeIncrement executeTransferEvents = false ∧
      executeTransferEvents.indexOf TxEvent.incrementNonce <
        executeTransferEvents.indexOf TxEvent.sign ∧
      executeTransferEvents ∈ allTxEventTraces := by decide

/-- Claim C3 (amended): every transaction-performing operation calls
incrementNonce exactly once per submission attempt, always before the signed
payload is broadcast; every operation except the self-transfer increments
immediately after signing, while the self-transfer increments immediately
before signing; and in all of them the increment is never rolled back when
the broadcast fails: starting from an uninitialized cache the tracked nonce
ends at network + 1 whether or not the broadcast succeeds. -/
theorem submission_increment_discipline :
    (allTxEventTraces.all fun t =>
        (incrementCount t == 1) && incrementBeforeBroadcast t) = true ∧
      (allTxEventTraces.all fun t =>
        (t == executeTransferEvents) || signImmediatelyBeforeIncrement t) = true ∧
      incrementImmediatelyBeforeSign executeTransferEvents = true ∧
      ∀ network : ℤ, ∀ broadcastFails : Bool, ∀ t ∈ allTxEventTraces,
        runTxEvents network broadcastFails t none = some (network + 1) := by
  refine ⟨by decide, by decide, by decide, ?_⟩
  intro network broadcastFails t ht
  simp only [allTxEventTraces, List.mem_cons, List.not_mem_nil, or_false] at ht
  rcases ht with rfl | rfl | rfl | rfl | rfl | rfl | rfl | rfl | rfl | rfl | rfl |
    rfl | rfl | rfl | rfl | rfl | rfl <;> cases broadcastFails <;> rfl

/-- Witness for the amended claim C3 at a concrete instance: the transfer
trace leaves the tracked nonce at 8 from network nonce 7 even though the
broadcast fails. -/
theorem submission_increment_discipline_witness :
    runTxEvents 7 true executeTransferEvents none = some 8 :=
  submission_increment_discipline.2.2.2 7 true executeTransferEvents (by decide)

/-- Models the count draw Math.floor(Math.random() * (max - min + 1)) + min
shared by every count-drawing site in the repository, with `r` the value
returned by Math.random() (a real in [0,1), modelled as a rational). -/
def pickCount (minV maxV : ℤ) (r : ℚ) : ℤ :=
  Int.floor (r * ((maxV : ℚ) - (minV : ℚ) + 1)) + minV

/-- Models the batch-size draw of BatchOperationManager.generateBatchOperations
(concatenated NFTManager.js file, lines 1025-1033): the configured min and max
are used exactly as given, with no normalization. -/
def generateBatchOperationsCount (minOps maxOps : ℤ) (r : ℚ) : ℤ :=
  pickCount minOps maxOps r

/-- Models the iteration draw of
ContractTesterManager.performParameterVariationTests (lines 314-322): the
configured min and max are used exactly as given, with no normalization. -/
def parameterVariationIterations (minIterations maxIterations : ℤ) (r : ℚ) : ℤ :=
  pickCount minIterations maxIterations r

lemma pickCount_bounds_of_le {minV maxV : ℤ} {r : ℚ} (h0 : 0 ≤ r) (h1 : r < 1)
    (hle : minV ≤ maxV) :
    minV ≤ pickCount minV maxV r ∧ pickCount minV maxV r ≤ maxV := by
  have hd : ((maxV : ℚ) - (minV : ℚ) + 1) = ((maxV - minV + 1 : ℤ) : ℚ) := by
    push_cast; ring
  have hdpos : (0 : ℚ) < ((maxV - minV + 1 : ℤ) : ℚ) := by
    exact_mod_cast (by omega : (0 : ℤ) < maxV - minV + 1)
  constructor
  · have hfloor : (0 : ℤ) ≤ Int.floor (r * ((maxV : ℚ) - (minV : ℚ) + 1)) := by
      rw [Int.le_floor]
      push_cast
      nlinarith
    simp only [pickCount]
    omega
  · have hfloor : Int.floor (r * ((maxV : ℚ) - (minV : ℚ) + 1)) < maxV - minV + 1 := by
      rw [Int.floor_lt, hd]
      nlinarith
    simp only [pickCount]
    omega

lemma pickCount_bounds_of_gt {minV maxV : ℤ} {r : ℚ} (h0 : 0 ≤ r) (h1 : r < 1)
    (hgt : maxV < minV) :
    maxV + 1 ≤ pickCount minV maxV r ∧ pickCount minV maxV r ≤ minV := by
  have hd : ((maxV : ℚ) - (minV : ℚ) + 1) = ((maxV - minV + 1 : ℤ) : ℚ) := by
    push_cast; ring
  have hdnonpos : ((maxV - minV + 1 : ℤ) : ℚ) ≤ 0 := by
    exact_mod_cast (by omega : (maxV - minV + 1 : ℤ) ≤ 0)
  constructor
  · have hfloor : (maxV - minV + 1 : ℤ) ≤
        Int.floor (r * ((maxV : ℚ) - (minV : ℚ) + 1)) := by
      rw [Int.le_floor, hd]
      nlinarith
    simp only [pickCount]
    omega
  · have hfloor : Int.floor (r * ((maxV : ℚ) - (minV : ℚ) + 1)) ≤ 0 := by
      have : r * ((maxV : ℚ) - (minV : ℚ) + 1) ≤ 0 := by rw [hd]; nlinarith
      calc Int.floor (r * ((maxV : ℚ) - (minV : ℚ) + 1)) ≤ Int.floor (0 : ℚ) :=
            Int.floor_le_floor this
        _ = 0 := Int.floor_zero
    simp only [pickCount]
    omega

/-- Claim C6, counterexample: the batch-size draw applies no normalization,
so with configured min = 5 and max = 2 and Math.random() = 1/2 it yields 4 —
neither the value 5 that raising max to min would force, nor a value in the
configured range. -/
theorem generateBatchOperationsCount_not_normalized :
    generateBatchOperationsCount 5 2 (1 / 2) = 4 ∧
      generateBatchOperationsCount 5 5 (1 / 2) = 5 ∧
      generateBatchOperationsCount 5 2 (1 / 2) ≠ generateBatchOperationsCount 5 5 (1 / 2) ∧
      ¬(5 ≤ generateBatchOperationsCount 5 2 (1 / 2) ∧
          generateBatchOperationsCount 5 2 (1 / 2) ≤ 2) := by
  have h1 : generateBatchOperationsCount 5 2 (1 / 2) = 4 := by
    simp only [generateBatchOperationsCount, pickCount]
    rw [show ((1 : ℚ) / 2 * (((2 : ℤ) : ℚ) - ((5 : ℤ) : ℚ) + 1)) = -1 by norm_num,
      show (-1 : ℚ) = ((-1 : ℤ) : ℚ) by norm_num, Int.floor_intCast]
    omega
  have h2 : generateBatchOperationsCount 5 5 (1 / 2) = 5 := by
    simp only [generateBatchOperationsCount, pickCount]
    rw [show ((1 : ℚ) / 2 * (((5 : ℤ) : ℚ) - ((5 : ℤ) : ℚ) + 1)) = 1 / 2 by norm_num]
    rw [show Int.floor ((1 : ℚ) / 2) = 0 by rw [Int.floor_eq_iff]; norm_num]
    omega
  exact ⟨h1, h2, by omega, by omega⟩

/-- Claim C6 (amended): the batch-size and test-iteration draws use the
configured min and max without normalization; whenever min ≤ max the drawn
count is an integer in [min, max] inclusive, but when min exceeds max the
drawn count lies in [max + 1, min] and is not forced to min. -/
theorem countDraw_range (minV maxV : ℤ) (r : ℚ) (h0 : 0 ≤ r) (h1 : r < 1) :
    (minV ≤ maxV →
        minV ≤ generateBatchOperationsCount minV maxV r ∧
          generateBatchOperationsCount minV maxV r ≤ maxV ∧
          minV ≤ parameterVariationIterations minV maxV r ∧
          parameterVariationIterations minV maxV r ≤ maxV) ∧
      (maxV < minV →
        maxV + 1 ≤ generateBatchOperationsCount minV maxV r ∧
          generateBatchOperationsCount minV maxV r ≤ minV) := by
  constructor
  · intro hle
    obtain ⟨hl, hr⟩ := pickCount_bounds_of_le h0 h1 hle
    exact ⟨hl, hr, hl, hr⟩
  · intro hgt
    exact pickCount_bounds_of_gt h0 h1 hgt

/-- Witness for the amended claim C6 with min = 3, max = 8, r = 1/2. -/
theorem countDraw_range_witness :
    (3 : ℤ) ≤ generateBatchOperationsCount 3 8 (1 / 2) ∧
      generateBatchOperationsCount 3 8 (1 / 2) ≤ 8 ∧
      (3 : ℤ) ≤ parameterVariationIterations 3 8 (1 / 2) ∧
      parameterVariationIterations 3 8 (1 / 2) ≤ 8 :=
  (countDraw_range 3 8 (1 / 2) (by norm_num) (by norm_num)).1 (by omega)

/-- Models the supply draw of NFTManager.executeNFTOperations (lines 476-478):
min is floored at 10, max is raised to min, then a pickCount draw.  The
arguments are the configured supply.min and supply.max values (the || 100 and
|| 1000 fallbacks for missing keys are applied before these arguments). -/
def drawnSupply (cfgSupplyMin cfgSupplyMax : ℤ) (r : ℚ) : ℤ :=
  let minSupply := max 10 cfgSupplyMin
  let maxSupply := max minSupply cfgSupplyMax
  pickCount minSupply maxSupply r

/-- Models the mint-count draw of NFTManager.executeNFTOperations (lines
490-492): min is floored at 1, max is Math.min(supply, Math.max(minMint,
cfgMintMax)), then a pickCount draw.  The arguments are the configured
mint_count.min and mint_count.max values (|| 2 and || 10 fallbacks applied
before these arguments). -/
def nftMintCount (supply cfgMintMin cfgMintMax : ℤ) (r : ℚ) : ℤ :=
  let minMint := max 1 cfgMintMin
  let maxMint := min supply (max minMint cfgMintMax)
  pickCount minMint maxMint r

/-- Claim C7, counterexample: with configured supply range {min 5, max 1} the
drawn supply is 10, and with configured mint count range {min 20, max 10} and
Math.random() = 1/2 the workflow decides to mint 15 NFTs, exceeding the drawn
max supply of 10: the Math.min cap on the upper bound does not bound the draw
when the normalized minimum mint count exceeds the supply. -/
theorem nftMintCount_can_exceed_supply :
    drawnSupply 5 1 0 = 10 ∧
      nftMintCount (drawnSupply 5 1 0) 20 10 (1 / 2) = 15 ∧
      ¬ nftMintCount (drawnSupply 5 1 0) 20 10 (1 / 2) ≤ drawnSupply 5 1 0 := by
  have hsupply : drawnSupply 5 1 0 = 10 := by
    simp only [drawnSupply, pickCount]
    norm_num
  have hmint : nftMintCount 10 20 10 (1 / 2) = 15 := by
    simp only [nftMintCount, pickCount]
    norm_num
  rw [hsupply]
  exact ⟨rfl, hmint, by omega⟩

/-- Claim C7 (amended): the number of NFTs the workflow decides to mint never
exceeds the drawn max supply of the deployed collection, provided the
normalized minimum mint count max(1, configured mint min) does not exceed the
drawn supply; when it does, the cap fails and the draw can exceed the
supply. -/
theorem nftMintCount_le_supply (supply cfgMintMin cfgMintMax : ℤ) (r : ℚ)
    (h0 : 0 ≤ r) (h1 : r < 1) (hmin : max 1 cfgMintMin ≤ supply) :
    nftMintCount supply cfgMintMin cfgMintMax r ≤ supply := by
  simp only [nftMintCount]
  have hminmax : max 1 cfgMintMin ≤ min supply (max (max 1 cfgMintMin) cfgMintMax) := by
    refine le_min hmin (le_max_left _ _)
  have hb := pickCount_bounds_of_le h0 h1 hminmax
  exact hb.2.trans (min_le_left _ _)

/-- Witness for the amended claim C7: with the default-like configuration
(supply 1000, mint count between 2 and 10, r = 1/2) the mint count is at most
the supply. -/
theorem nftMintCount_le_supply_witness :
    nftMintCount 1000 2 10 (1 / 2) ≤ 1000 :=
  nftMintCount_le_supply 1000 2 10 (1 / 2) (by norm_num) (by norm_num) (by omega)

/-- Fixed boundary values of ContractTesterManager.performBoundaryTests
(lines 554-564); Number.MAX_SAFE_INTEGER is 2^53 - 1. -/
def boundaryValues : List ℕ :=
  [0, 1, 2 ^ 16 - 1, 2 ^ 16, 2 ^ 32 - 1, 2 ^ 32, 2 ^ 48 - 1, 2 ^ 48, 2 ^ 53 - 1]

/-- Models the setValue calls issued by
ContractTesterManager.performBoundaryTests (lines 541-633): the iterations
configuration is read and logged but not used; the loop issues one setValue
call per element of boundaryValues, in order. -/
def performBoundaryTestsCalls (cfgIterMin cfgIterMax : ℤ) : List ℕ :=
  (List.range boundaryValues.length).map fun i => boundaryValues.getD i 0

/-- Claim C8: for every iterations configuration the boundary test sequence
issues exactly 9 setValue calls with the fixed values 0, 1, 2^16-1, 2^16,
2^32-1, 2^32, 2^48-1, 2^48 and Number.MAX_SAFE_INTEGER, in that order. -/
theorem boundaryTests_fixed_nine_calls (cfgIterMin cfgIterMax : ℤ) :
    performBoundaryTestsCalls cfgIterMin cfgIterMax =
        [0, 1, 65535, 65536, 4294967295, 4294967296, 281474976710655,
          281474976710656, 9007199254740991] ∧
      (performBoundaryTestsCalls cfgIterMin cfgIterMax).length = 9 := by
  exact ⟨rfl, rfl⟩

/-- Models String.prototype.includes(sub) for the error-message check:
the characters of sub occur contiguously inside the characters of s. -/
def includesStr (s sub : String) : Bool := decide (sub.data <:+: s.data)

/-- Outcome of one faucet claim attempt as observed by requestFaucet: a
response carrying a transaction hash, a response carrying an error message,
a response with neither, or a thrown error (captcha or network failure). -/
inductive FaucetOutcome where
  | success
  | apiError (msg : String)
  | unexpected
  | exceptionThrown
deriving DecidableEq

/-- Whether requestFaucet retries after this outcome: every failure retries
except an error message containing "waitlist", which is terminal. -/
def faucetRetries : FaucetOutcome → Bool
  | FaucetOutcome.success => false
  | FaucetOutcome.apiError msg => !(includesStr msg "waitlist")
  | FaucetOutcome.unexpected => true
  | FaucetOutcome.exceptionThrown => true

/-- Models the backoff wait in seconds before retry number retryCount:
Math.min(300, base_wait_time * 2^retryCount || 10 * 2^retryCount); a zero
baseWaitTime models an unset (or falsy) config.base_wait_time, for which the
JS || falls back to 10 * 2^retryCount. -/
def faucetWaitTime (baseWaitTime retryCount : ℕ) : ℕ :=
  min 300
    (if baseWaitTime * 2 ^ retryCount = 0 then 10 * 2 ^ retryCount
     else baseWaitTime * 2 ^ retryCount)

/-- Models the retry loop of FaucetManager.requestFaucet (concatenated in
src/utils/delayUtils.js, lines 102-246).  `outcomes k` is the outcome of the
attempt with retryCount k; the fuel argument is maxRetries - retryCount, so
fuel 0 means the while guard retryCount < maxRetries fails.  A response with
a hash returns true; an error message containing "waitlist" returns false
with no retry; any other error, unexpected response or thrown error
increments retryCount and, when attempts remain, sleeps the backoff wait and
retries.  Returns (success flag, attempts made, backoff sleeps performed). -/
def requestFaucetLoop (baseWaitTime : ℕ) (outcomes : ℕ → FaucetOutcome) :
    ℕ → ℕ → Bool × ℕ × List ℕ
  | 0, _ => (false, 0, [])
  | fuel + 1, retryCount =>
    match outcomes retryCount, fuel with
    | FaucetOutcome.success, _ => (true, 1, [])
    | FaucetOutcome.apiError msg, 0 =>
      (false, 1, [])
    | FaucetOutcome.apiError msg, fuel' + 1 =>
      if includesStr msg "waitlist" then (false, 1, [])
      else
        let rest := requestFaucetLoop baseWaitTime outcomes (fuel' + 1) (retryCount + 1)
        (rest.1, rest.2.1 + 1, faucetWaitTime baseWaitTime (retryCount + 1) :: rest.2.2)
    | FaucetOutcome.unexpected, 0 => (false, 1, [])
    | FaucetOutcome.unexpected, fuel' + 1 =>
      let rest := requestFaucetLoop baseWaitTime outcomes (fuel' + 1) (retryCount + 1)
      (rest.1, rest.2.1 + 1, faucetWaitTime baseWaitTime (retryCount + 1) :: rest.2.2)
    | FaucetOutcome.exceptionThrown, 0 => (false, 1, [])
    | FaucetOutcome.exceptionThrown, fuel' + 1 =>
      let rest := requestFaucetLoop baseWaitTime outcomes (fuel' + 1) (retryCount + 1)
      (rest.1, rest.2.1 + 1, faucetWaitTime baseWaitTime (retryCount + 1) :: rest.2.2)

/-- Models requestFaucet: run the retry loop from retryCount 0 with
max_retries attempts of fuel. -/
def requestFaucet (baseWaitTime maxRetries : ℕ) (outcomes : ℕ → FaucetOutcome) :
    Bool × ℕ × List ℕ :=
  requestFaucetLoop baseWaitTime outcomes maxRetries 0

lemma faucetWaitTime_cons_shift (b rc n : ℕ) :
    faucetWaitTime b (rc + 1) ::
        ((List.range n).map fun k => faucetWaitTime b (rc + 1 + k + 1)) =
      (List.range (n + 1)).map fun k => faucetWaitTime b (rc + k + 1) := by
  rw [List.range_succ_eq_map, List.map_cons, List.map_map]
  refine congrArg₂ (· :: ·) (congrArg (faucetWaitTime b) (by omega)) ?_
  refine List.map_congr_left fun k _ => ?_
  simp only [Function.comp_apply]
  exact congrArg (faucetWaitTime b) (by omega)

lemma requestFaucetLoop_all_retry (baseWaitTime : ℕ) (outcomes : ℕ → FaucetOutcome)
    (hall : ∀ k, faucetRetries (outcomes k) = true) :
    ∀ (fuel retryCount : ℕ),
      requestFaucetLoop baseWaitTime outcomes fuel retryCount =
        (false, fuel, (List.range (fuel - 1)).map fun k =>
          faucetWaitTime baseWaitTime (retryCount + k + 1)) := by
  intro fuel
  induction fuel with
  | zero => intro retryCount; rfl
  | succ fuel ih =>
    intro retryCount
    rw [requestFaucetLoop.eq_def]
    cases houtcome : outcomes retryCount with
    | success =>
      have := hall retryCount
      rw [houtcome] at this
      simp [faucetRetries] at this
    | apiError msg =>
      have hwl : includesStr msg "waitlist" = false := by
        have := hall retryCount
        rw [houtcome] at this
        simpa [faucetRetries] using this
      cases fuel with
      | zero => simp [houtcome]
      | succ fuel' =>
        simp only [houtcome, hwl, Bool.false_eq_true, if_false]
        rw [ih (retryCount + 1)]
        simp only [Nat.succ_sub_one]
        rw [faucetWaitTime_cons_shift]
    | unexpected =>
      cases fuel with
      | zero => simp [houtcome]
      | succ fuel' =>
        simp only [houtcome]
        rw [ih (retryCount + 1)]
        simp only [Nat.succ_sub_one]
        rw [faucetWaitTime_cons_shift]
    | exceptionThrown =>
      cases fuel with
      | zero => simp [houtcome]
      | succ fuel' =>
        simp only [houtcome]
        rw [ih (retryCount + 1)]
        simp only [Nat.succ_sub_one]
        rw [faucetWaitTime_cons_shift]

/-- Claim C9: a response whose error message contains "waitlist" makes
requestFaucet return false after that single attempt, with no retry and no
backoff sleep; when every attempt fails with a retryable outcome (any error
without "waitlist", unexpected response or thrown error) the loop performs
exactly max_retries attempts with the exponential backoff sleeps
min(300, base * 2^k) between consecutive attempts; and every backoff sleep
is capped at 300 seconds. -/
theorem requestFaucet_waitlist_terminal_and_backoff
    (baseWaitTime maxRetries : ℕ) (outcomes : ℕ → FaucetOutcome) (msg : String)
    (hmax : 0 < maxRetries) :
    (outcomes 0 = FaucetOutcome.apiError msg → includesStr msg "waitlist" = true →
        requestFaucet baseWaitTime maxRetries outcomes = (false, 1, [])) ∧
      ((∀ k, faucetRetries (outcomes k) = true) →
        requestFaucet baseWaitTime maxRetries outcomes =
          (false, maxRetries, (List.range (maxRetries - 1)).map fun k =>
            faucetWaitTime baseWaitTime (k + 1))) ∧
      ∀ k, faucetWaitTime baseWaitTime k ≤ 300 := by
  refine ⟨?_, ?_, fun k => min_le_left _ _⟩
  · intro houtcome hwl
    obtain ⟨fuel, rfl⟩ : ∃ fuel, maxRetries = fuel + 1 :=
      ⟨maxRetries - 1, by omega⟩
    rw [requestFaucet, requestFaucetLoop.eq_def]
    cases fuel with
    | zero => simp [houtcome]
    | succ fuel' => simp [houtcome, hwl]
  · intro hall
    rw [requestFaucet, requestFaucetLoop_all_retry baseWaitTime outcomes hall]
    refine congrArg (fun l => (false, maxRetries, l)) ?_
    exact List.map_congr_left fun k _ => congrArg (faucetWaitTime baseWaitTime) (by omega)

/-- Witness for claim C9: a faucet run whose first attempt is answered with
the waitlist error returns false after exactly one attempt, with no sleeps. -/
theorem requestFaucet_waitlist_witness :
    requestFaucet 10 3 (fun _ => FaucetOutcome.apiError "Address is on waitlist") =
      (false, 1, []) :=
  (requestFaucet_waitlist_terminal_and_backoff 10 3
    (fun _ => FaucetOutcome.apiError "Address is on waitlist")
    "Address is on waitlist" (by omega)).1 rfl (by decide)

/-- Models Math.min(100, Math.max(0, p)): the percentage clamp applied to the
configured burn percentage in both the NFT and the ERC20 workflow. -/
def clampPercent (p : ℤ) : ℤ := min 100 (max 0 p)

/-- Models the burn percentage of NFTManager.executeNFTOperations (line 520):
Math.min(100, Math.max(0, config.burn_percentage || 20)); a configured value
of 0 is falsy in JS and falls back to the default 20. -/
def nftBurnPercentage (cfg : ℤ) : ℤ := clampPercent (if cfg = 0 then 20 else cfg)

/-- Models the burn count of NFTManager.executeNFTOperations (line 521):
Math.ceil(mintedTokens.length * burnPercentage / 100). -/
def nftBurnCount (mintedCount : ℕ) (cfg : ℤ) : ℤ :=
  Int.ceil ((mintedCount : ℚ) * ((nftBurnPercentage cfg : ℤ) : ℚ) / 100)

/-- Models the burn percentage of ERC20TokenDeployer.executeTokenOperations
(line 471): Math.min(100, Math.max(0, config.burn_percentage || 10)). -/
def erc20BurnPercentage (cfg : ℤ) : ℤ := clampPercent (if cfg = 0 then 10 else cfg)

/-- Models the burn amount of ERC20TokenDeployer.executeTokenOperations
(line 472): Math.floor(mintAmount * burnPercentage / 100). -/
def erc20BurnAmount (mintAmount : ℕ) (cfg : ℤ) : ℤ :=
  Int.floor ((mintAmount : ℚ) * ((erc20BurnPercentage cfg : ℤ) : ℚ) / 100)

/-- Models the burn selection of NFTManager.executeNFTOperations (lines
527-529): shuffle the minted token ids (a permutation `shuffled` of `minted`)
and take the first burnCount of them. -/
def nftTokensToBurn (minted shuffled : List ℕ) (cfg : ℤ) : List ℕ :=
  shuffled.take (nftBurnCount minted.length cfg).toNat

lemma clampPercent_bounds (p : ℤ) : 0 ≤ clampPercent p ∧ clampPercent p ≤ 100 := by
  unfold clampPercent
  omega

lemma floor_mul_div_hundred (n : ℕ) (p : ℤ) :
    Int.floor ((n : ℚ) * (p : ℚ) / 100) = ((n : ℤ) * p) / 100 := by
  rw [show (n : ℚ) * (p : ℚ) / 100 = (((n : ℤ) * p : ℤ) : ℚ) / ((100 : ℕ) : ℚ) by
    push_cast; ring]
  exact Rat.floor_intCast_div_natCast _ _

lemma ceil_mul_div_hundred (n : ℕ) (p : ℤ) (hp : 0 ≤ p) :
    Int.ceil ((n : ℚ) * (p : ℚ) / 100) = ((n : ℤ) * p + 99) / 100 := by
  have hfloor : Int.floor (-((n : ℚ) * (p : ℚ) / 100)) = (-((n : ℤ) * p)) / 100 := by
    rw [show -((n : ℚ) * (p : ℚ) / 100) = ((-((n : ℤ) * p) : ℤ) : ℚ) / ((100 : ℕ) : ℚ) by
      push_cast; ring]
    exact Rat.floor_intCast_div_natCast _ _
  have hneg := Int.floor_neg (α := ℚ) (a := (n : ℚ) * (p : ℚ) / 100)
  have hnp : 0 ≤ (n : ℤ) * p := mul_nonneg (Int.ofNat_nonneg n) hp
  omega

/-- Claim C10: the NFT workflow burns the ceiling of (minted count × burn
percentage / 100) with the percentage clamped to [0,100] — a ceiling, unlike
the ERC20 workflow, which burns the floor of (minted amount × burn
percentage / 100): e.g. 5 minted tokens at 10% give an NFT burn count of 1
but an ERC20 burn amount of 0, while the spec scenario of 5,000,000 minted
at 10% burns 500,000; and the NFT burn set is always a subset of the
successfully minted token ids. -/
theorem nft_ceil_erc20_floor_burn_policy :
    (∀ (n : ℕ) (cfg : ℤ),
        nftBurnCount n cfg = ((n : ℤ) * nftBurnPercentage cfg + 99) / 100) ∧
      (∀ (m : ℕ) (cfg : ℤ),
        erc20BurnAmount m cfg = ((m : ℤ) * erc20BurnPercentage cfg) / 100) ∧
      (∀ cfg : ℤ, 0 ≤ nftBurnPercentage cfg ∧ nftBurnPercentage cfg ≤ 100) ∧
      nftBurnCount 5 10 = 1 ∧
      erc20BurnAmount 5 10 = 0 ∧
      erc20BurnAmount 5000000 10 = 500000 ∧
      ∀ (minted shuffled : List ℕ) (cfg : ℤ), shuffled.Perm minted →
        nftTokensToBurn minted shuffled cfg ⊆ minted := by
  have hceil : ∀ (n : ℕ) (cfg : ℤ),
      nftBurnCount n cfg = ((n : ℤ) * nftBurnPercentage cfg + 99) / 100 := fun n cfg =>
    ceil_mul_div_hundred n _ (clampPercent_bounds _).1
  have hfloor : ∀ (m : ℕ) (cfg : ℤ),
      erc20BurnAmount m cfg = ((m : ℤ) * erc20BurnPercentage cfg) / 100 := fun m cfg =>
    floor_mul_div_hundred m _
  refine ⟨hceil, hfloor, fun cfg => clampPercent_bounds _, ?_, ?_, ?_, ?_⟩
  · rw [hceil, show nftBurnPercentage 10 = 10 by decide]
    norm_num
  · rw [hfloor, show erc20BurnPercentage 10 = 10 by decide]
    norm_num
  · rw [hfloor, show erc20BurnPercentage 10 = 10 by decide]
    norm_num
  · intro minted shuffled cfg hperm x hx
    exact hperm.subset (List.take_subset _ _ hx)

/-- Witness for claim C10 at a concrete instance: the burn selection from the
shuffled minted ids [9, 7, 8] is a subset of the minted ids [7, 8, 9]. -/
theorem nft_burn_subset_witness :
    nftTokensToBurn [7, 8, 9] [9, 7, 8] 50 ⊆ [7, 8, 9] :=
  nft_ceil_erc20_floor_burn_policy.2.2.2.2.2.2 [7, 8, 9] [9, 7, 8] 50 (by decide)
